import Mathlib

/-!
Verification of the RingoJS `ringo/httpserver` module (a Jetty wrapper).

The development shallowly embeds the parts of `src/modules/ringo/httpserver.js`
that the claims are about:

* the WebSocket channel object built inside `addWebSocket`'s
  `doWebSocketConnect` (lines 201-286): `close`, `send`, `sendBinary`,
  `isOpen`, all guarded by the closure variable `conn`, which stays
  `undefined` until the "open" event fires;
* the per-server context registry `Server.getContext` (lines 88-125) with its
  key derivation `virtualHosts ? String(virtualHosts) + path : path`;
* `Server.prototype.stop` (lines 303-306), which stops jetty and resets
  `contextMap = {}`;
* the daemon-level `start`/`stop` functions (lines 495-528) guarded by the
  module-level `started` flag;
* the `Server` constructor's configuration handling (lines 331-381) and the
  port validation in `parseOptions` (lines 403-409).

JavaScript values crossing these interfaces are modelled by the inductive
`JSVal`.  Numbers are modelled as integers (`Int`); `NaN` arises in the model
only as the `none` result of the numeric conversions (`parseIntJS`), matching
the places the source applies them.  String-to-number coercion recognises
decimal integer and fraction literals; hexadecimal and exponent literal forms
are outside the model (they do not occur in this module's inputs).
-/

/-- JavaScript values as they appear at the interfaces modelled here.
`arr` covers the arrays of virtual-host strings accepted by `getContext`. -/
inductive JSVal where
  | undef
  | null
  | bool (b : Bool)
  | num (n : Int)
  | str (s : String)
  | arr (elems : List String)
deriving DecidableEq, Repr

/-- JavaScript truthiness: `undefined`, `null`, `false`, `0` and `""` are
falsy; objects (arrays) are always truthy. -/
def JSVal.truthy : JSVal → Bool
  | .undef => false
  | .null => false
  | .bool b => b
  | .num n => n != 0
  | .str s => s != ""
  | .arr _ => true

/-- JavaScript `String(v)` conversion.  An array stringifies as its elements
joined with commas. -/
def JSVal.jsToString : JSVal → String
  | .undef => "undefined"
  | .null => "null"
  | .bool b => if b then "true" else "false"
  | .num n => toString n
  | .str s => s
  | .arr elems => String.intercalate "," elems

/-- Numeric value of a list of decimal digit characters. -/
def digitsVal (ds : List Char) : Nat :=
  ds.foldl (fun acc c => acc * 10 + (c.toNat - 48)) 0

/-- Whitespace characters stripped by JavaScript's numeric conversions. -/
def isJsSpace (c : Char) : Bool :=
  c == ' ' || c == '\t' || c == '\n' || c == '\r'

/-- Strip leading and trailing whitespace from a character list. -/
def trimChars (cs : List Char) : List Char :=
  ((cs.dropWhile isJsSpace).reverse.dropWhile isJsSpace).reverse

/-- JavaScript `parseInt(s, 10)` on a string: skip whitespace, optional sign,
then the longest leading run of decimal digits; `none` models `NaN` (no
digits found). -/
def parseIntCore (s : String) : Option Int :=
  match s.toList.dropWhile isJsSpace with
  | '-' :: rest =>
      let ds := rest.takeWhile Char.isDigit
      if ds.isEmpty then none else some (-(digitsVal ds : Int))
  | '+' :: rest =>
      let ds := rest.takeWhile Char.isDigit
      if ds.isEmpty then none else some ((digitsVal ds : Int))
  | cs =>
      let ds := cs.takeWhile Char.isDigit
      if ds.isEmpty then none else some ((digitsVal ds : Int))

/-- JavaScript `parseInt(v, 10)`: the argument is first converted with
`String(v)`, then parsed; `none` models `NaN`. -/
def parseIntJS (v : JSVal) : Option Int :=
  match v with
  | .num n => some n
  | v => parseIntCore v.jsToString

/-- The JavaScript idiom `x || d` applied to the numeric result `x` of
`parseInt`: `NaN` (modelled as `none`) and `0` are falsy, so both fall
through to the default `d`. -/
def numOr (x : Option Int) (d : Int) : Int :=
  match x with
  | none => d
  | some n => if n = 0 then d else n

/-- Recognises an unsigned decimal numeric literal: digits, optionally with a
fraction part, or a fraction alone (`"5"`, `"5."`, `"5.25"`, `".5"`). -/
def unsignedNumeric (cs : List Char) : Bool :=
  let ds := cs.takeWhile Char.isDigit
  let rest := cs.dropWhile Char.isDigit
  if ds.isEmpty then
    match rest with
    | '.' :: r2 => !r2.isEmpty && r2.all Char.isDigit
    | _ => false
  else
    match rest with
    | [] => true
    | '.' :: r2 => r2.all Char.isDigit
    | _ => false

/-- Whether `Number(s)` for a string `s` yields a finite number: the trimmed
string is empty (yields `0`) or is a signed decimal literal. -/
def strIsFiniteNumber (s : String) : Bool :=
  match trimChars s.toList with
  | [] => true
  | '-' :: rest => unsignedNumeric rest
  | '+' :: rest => unsignedNumeric rest
  | cs => unsignedNumeric cs

/-- JavaScript's global `isFinite(v)`, which coerces with `Number(v)` first:
`undefined` gives `NaN`; `null` and booleans give finite numbers; model
numbers are finite integers; strings (and arrays, via their string form) are
finite when they are numeric literals. -/
def isFiniteJS (v : JSVal) : Bool :=
  match v with
  | .undef => false
  | .null => true
  | .bool _ => true
  | .num _ => true
  | .str s => strIsFiniteNumber s
  | .arr elems => strIsFiniteNumber (String.intercalate "," elems)

/-! ## The WebSocket channel (`socket` object, httpserver.js lines 220-270)

The closure variable `conn` (line 207) is `undefined` until the "open"
listener (lines 276-278) assigns the live Jetty connection to it; it is
modelled as `Option Connection`.  Each operation returns, inside `Except`
(the throwing-JavaScript monad), the list of calls it makes on the transport
connection. -/

/-- The Jetty WebSocket connection handed to the "open" listener.  The only
attribute the wrapped operations read is its `isOpen()` state. -/
structure Connection where
  connIsOpen : Bool
deriving DecidableEq, Repr

/-- A byte array argument to `sendBinary`; only its contents and length are
relevant to the model. -/
abbrev ByteArr := List Nat

/-- Calls the channel operations can make on the underlying transport
connection `conn`. -/
inductive TransportCall where
  | disconnect
  | sendMessage (msg : String)
  | sendMessageBinary (data : ByteArr) (off : Int) (len : Int)
deriving DecidableEq, Repr

/-- `socket.close` (lines 226-230): `if (conn) conn.disconnect();`. -/
def socket_close (conn : Option Connection) : Except String (List TransportCall) :=
  match conn with
  | none => Except.ok []
  | some _ => Except.ok [TransportCall.disconnect]

/-- `socket.send` (lines 237-241): `if (conn) conn.sendMessage(msg);`. -/
def socket_send (conn : Option Connection) (msg : String) :
    Except String (List TransportCall) :=
  match conn with
  | none => Except.ok []
  | some _ => Except.ok [TransportCall.sendMessage msg]

/-- `socket.sendBinary` (lines 252-258):
`if (conn) { offset = parseInt(offset, 10) || 0;
length = parseInt(length, 10) || bytearray.length;
conn.sendMessage(bytearray, offset, length); }`. -/
def socket_sendBinary (conn : Option Connection) (bytearray : ByteArr)
    (off len : JSVal) : Except String (List TransportCall) :=
  match conn with
  | none => Except.ok []
  | some _ =>
      let o := numOr (parseIntJS off) 0
      let l := numOr (parseIntJS len) (bytearray.length : Int)
      Except.ok [TransportCall.sendMessageBinary bytearray o l]

/-- `socket.isOpen` (lines 266-268): `return conn && conn.isOpen();`.
JavaScript `&&` returns its first operand when that operand is falsy, so
with `conn` still `undefined` the call returns `undefined`, not `false`. -/
def socket_isOpen (conn : Option Connection) : JSVal :=
  match conn with
  | none => JSVal.undef
  | some c => JSVal.bool c.connIsOpen

/-! ## The upgrade handshake (`doWebSocketConnect`, lines 204-285) -/

/-- The channel object built for one upgrade handshake: an allocation
identity (each handshake builds a fresh `var socket = {...}`) and the
closure variable `conn`, unset at construction. -/
structure SocketChannel where
  chanId : Nat
  conn : Option Connection
deriving DecidableEq, Repr

/-- The observable actions of `doWebSocketConnect`, in source statement
order. -/
inductive HandshakeStep where
  | createChannel (ch : Nat)
  | registerOpenListener (ch : Nat)
  | callOnconnect (ch : Nat)
  | returnImpl (ch : Nat)
deriving DecidableEq, Repr

/-- `doWebSocketConnect(request, protocol)` (lines 204-285): build a fresh
`socket` object with `conn` unset, mix in the event emitter and register the
"open" listener, call `onconnect(socket, request, protocol)` if it is a
function, then return `socket.impl` to the transport layer.  `freshId` is
the allocation identity of the new channel object. -/
def doWebSocketConnect (onconnectIsFunction : Bool) (freshId : Nat) :
    SocketChannel × List HandshakeStep :=
  let socket : SocketChannel := { chanId := freshId, conn := none }
  (socket,
    [HandshakeStep.createChannel freshId, HandshakeStep.registerOpenListener freshId]
      ++ (if onconnectIsFunction then [HandshakeStep.callOnconnect freshId] else [])
      ++ [HandshakeStep.returnImpl freshId])

/-- C1 counterexample: on the freshly constructed channel of a handshake the
transport reference is unset and `isOpen()` evaluates to `undefined`, which
is not the boolean `false` the claim states. -/
theorem C1_isOpen_undefined_counterexample :
    (doWebSocketConnect true 0).1.conn = none ∧
    socket_isOpen (doWebSocketConnect true 0).1.conn = JSVal.undef ∧
    JSVal.undef ≠ JSVal.bool false := by
  refine ⟨rfl, rfl, by decide⟩

/-- C1 (amended): on a freshly constructed channel (transport reference
`conn` unset), `send`, `sendBinary` and `close` complete without throwing
and perform no transport call, and `isOpen()` returns `undefined` — a falsy
value rather than the boolean `false`. -/
theorem C1_fresh_channel_noop (f : Bool) (freshId : Nat) (msg : String)
    (bytes : ByteArr) (off len : JSVal) :
    (doWebSocketConnect f freshId).1.conn = none ∧
    socket_send none msg = Except.ok [] ∧
    socket_sendBinary none bytes off len = Except.ok [] ∧
    socket_close none = Except.ok [] ∧
    socket_isOpen none = JSVal.undef ∧
    (socket_isOpen none).truthy = false := by
  refine ⟨rfl, rfl, rfl, rfl, rfl, rfl⟩

/-- C10: with the transport reference set, an explicit numeric length of `0`
falls back to the full byte-array length (because `parseInt(0, 10) || d`
takes the default `d`), and a non-numeric offset such as `undefined` falls
back to `0`. -/
theorem C10_zero_length_falls_back (c : Connection) (bytes : ByteArr)
    (off len : JSVal) :
    socket_sendBinary (some c) bytes off (JSVal.num 0)
      = Except.ok [TransportCall.sendMessageBinary bytes
          (numOr (parseIntJS off) 0) (bytes.length : Int)] ∧
    socket_sendBinary (some c) bytes JSVal.undef len
      = Except.ok [TransportCall.sendMessageBinary bytes 0
          (numOr (parseIntJS len) (bytes.length : Int))] := by
  have hu : parseIntJS JSVal.undef = none := by decide
  constructor
  · simp [socket_sendBinary, parseIntJS, numOr]
  · simp [socket_sendBinary, hu, numOr]

/-- C4 counterexample: with a 10-byte array, offset `2` and the non-numeric
length `"foo"`, the code sends length `10` — the full byte-array length —
whereas the remaining buffer length after offset `2` is `8`. -/
theorem C4_full_length_counterexample :
    socket_sendBinary (some ⟨true⟩) [0, 1, 2, 3, 4, 5, 6, 7, 8, 9]
        (JSVal.num 2) (JSVal.str "foo")
      = Except.ok [TransportCall.sendMessageBinary
          [0, 1, 2, 3, 4, 5, 6, 7, 8, 9] 2 10] ∧
    (10 : Int) ≠ (([0, 1, 2, 3, 4, 5, 6, 7, 8, 9] : ByteArr).length : Int) - 2 := by
  refine ⟨rfl, by decide⟩

/-- C4 (amended): with the transport reference set, `sendBinary(bytes)` with
offset and length omitted sends the full buffer starting at offset `0`, and
a non-numeric length argument falls back to the full byte-array length (not
the length remaining after the offset) rather than failing. -/
theorem C4_default_bounds (c : Connection) (bytes : ByteArr) (off len : JSVal)
    (hlen : parseIntJS len = none) :
    socket_sendBinary (some c) bytes JSVal.undef JSVal.undef
      = Except.ok [TransportCall.sendMessageBinary bytes 0 (bytes.length : Int)] ∧
    socket_sendBinary (some c) bytes off len
      = Except.ok [TransportCall.sendMessageBinary bytes
          (numOr (parseIntJS off) 0) (bytes.length : Int)] := by
  have hu : parseIntJS JSVal.undef = none := by decide
  constructor
  · simp [socket_sendBinary, hu, numOr]
  · simp [socket_sendBinary, hlen, numOr]

/-- C4 witness: the amended statement evaluated with a live connection, a
3-byte array, offset `2` and the non-numeric length `"x"`. -/
theorem C4_default_bounds_witness :
    socket_sendBinary (some ⟨true⟩) [1, 2, 3] JSVal.undef JSVal.undef
      = Except.ok [TransportCall.sendMessageBinary [1, 2, 3] 0 3] ∧
    socket_sendBinary (some ⟨true⟩) [1, 2, 3] (JSVal.num 2) (JSVal.str "x")
      = Except.ok [TransportCall.sendMessageBinary [1, 2, 3] 2 3] :=
  C4_default_bounds ⟨true⟩ [1, 2, 3] (JSVal.num 2) (JSVal.str "x") (by decide)

/-- C5: each upgrade handshake constructs a fresh channel whose transport
reference is unset, and when `onconnect` is a function it is invoked
synchronously after the channel is built and before `doWebSocketConnect`
returns `socket.impl` to the transport layer. -/
theorem C5_onconnect_before_handshake_returns (freshId : Nat) :
    (doWebSocketConnect true freshId).1.conn = none ∧
    (doWebSocketConnect true freshId).1.chanId = freshId ∧
    (doWebSocketConnect true freshId).2 =
      [HandshakeStep.createChannel freshId,
       HandshakeStep.registerOpenListener freshId,
       HandshakeStep.callOnconnect freshId,
       HandshakeStep.returnImpl freshId] ∧
    (doWebSocketConnect false freshId).2 =
      [HandshakeStep.createChannel freshId,
       HandshakeStep.registerOpenListener freshId,
       HandshakeStep.returnImpl freshId] := by
  refine ⟨rfl, rfl, rfl, rfl⟩

/-! ## The context registry (`Server.getContext`, httpserver.js lines 88-125)

The per-server closure variable `contextMap` is modelled as an association
list from context key to the allocation identity of the underlying
`ServletContextHandler` (`cx`).  Every call to `getContext` returns an
object whose methods (`getHandler`, `serveApplication`, `serveStatic`,
`addServlet`, `addWebSocket`) all close over `cx` and carry no state of
their own, so the model identifies the returned Context with the handler it
wraps, matching the spec's data model where a Context's identity is its
(path, virtualHosts) registry key. -/

/-- The options object accepted by `getContext` (fields read at lines
95-110); absent fields are `undefined`. -/
structure ContextOptions where
  sessions : JSVal
  security : JSVal
  cookieName : JSVal
  cookieDomain : JSVal
  cookiePath : JSVal
  httpOnlyCookies : JSVal
  secureCookies : JSVal
deriving DecidableEq, Repr

/-- The empty options object `{}` produced by `options = options || {}`. -/
def noOptions : ContextOptions :=
  ⟨.undef, .undef, .undef, .undef, .undef, .undef, .undef⟩

/-- Session-cookie configuration applied at lines 103-110 when the handler
has a session handler.  `setName` is only called when `options.cookieName`
is a string (line 106). -/
structure SessionCookieSettings where
  httpOnly : Bool
  secure : Bool
  cookieName : Option String
  cookieDomain : JSVal
  cookiePath : JSVal
deriving DecidableEq, Repr

/-- The state of one `org.eclipse.jetty.servlet.ServletContextHandler`
created at lines 97-111.  A session handler (and hence cookie
configuration) exists exactly when the handler was created with sessions
enabled. -/
structure HandlerRec where
  path : String
  virtualHosts : Option (List String)
  sessions : Bool
  security : Bool
  cookie : Option SessionCookieSettings
deriving DecidableEq, Repr

/-- Lines 97-111: construct the servlet context handler from path, virtual
hosts and options.  `Boolean(options.sessions)` and
`Boolean(options.security)` are JavaScript truthiness; `setVirtualHosts` is
called only when `virtualHosts` is truthy, wrapping a non-array in a
one-element array of its string form. -/
def mkHandler (path : String) (virtualHosts : JSVal) (options : ContextOptions) :
    HandlerRec :=
  { path := path
    virtualHosts :=
      if virtualHosts.truthy then
        some (match virtualHosts with
              | JSVal.arr elems => elems
              | v => [v.jsToString])
      else none
    sessions := options.sessions.truthy
    security := options.security.truthy
    cookie :=
      if options.sessions.truthy then
        some { httpOnly := options.httpOnlyCookies.truthy
               secure := options.secureCookies.truthy
               cookieName := match options.cookieName with
                             | JSVal.str s => some s
                             | _ => none
               cookieDomain := options.cookieDomain
               cookiePath := options.cookiePath }
      else none }

/-- The per-server mutable state touched by `getContext`, `stop` and the
jetty instance: the registry `contextMap`, the allocated handlers (with a
fresh-identity counter), whether jetty is running, and which handlers have
had `cx.start()` called (line 114). -/
structure ServerState where
  contextMap : List (String × Nat)
  handlers : List (Nat × HandlerRec)
  nextId : Nat
  jettyRunning : Bool
  startedHandlers : List Nat
deriving DecidableEq, Repr

/-- The registry state of a freshly constructed server, before any
`getContext` call. -/
def initServerState : ServerState :=
  { contextMap := [], handlers := [], nextId := 0, jettyRunning := false,
    startedHandlers := [] }

/-- The Context value returned by `getContext`: all methods of the returned
object delegate to the wrapped servlet context handler `cx`, identified by
its allocation id. -/
structure Context where
  handler : Nat
deriving DecidableEq, Repr

/-- Line 91: `var contextKey = virtualHosts ? String(virtualHosts) + path :
path;`. -/
def contextKey (virtualHosts : JSVal) (path : String) : String :=
  if virtualHosts.truthy then virtualHosts.jsToString ++ path else path

/-- `Server.getContext(path, virtualHosts, options)` (lines 88-125): look the
derived key up in `contextMap`; on a miss, construct a handler from the
options, register it, and start it if jetty is already running; on a hit,
return the existing handler with the options ignored. -/
def getContext (s : ServerState) (path : String) (virtualHosts : JSVal)
    (opts : Option ContextOptions) : Context × ServerState :=
  let options := opts.getD noOptions
  let key := contextKey virtualHosts path
  match s.contextMap.lookup key with
  | some cxId => (⟨cxId⟩, s)
  | none =>
      let cxId := s.nextId
      ({ handler := cxId },
       { contextMap := (key, cxId) :: s.contextMap
         handlers := (cxId, mkHandler path virtualHosts options) :: s.handlers
         nextId := cxId + 1
         jettyRunning := s.jettyRunning
         startedHandlers :=
           if s.jettyRunning then cxId :: s.startedHandlers
           else s.startedHandlers })

/-- `Server.prototype.stop` (lines 303-306): `jetty.stop(); contextMap =
{};` — the registry is cleared, the identity counter is untouched. -/
def serverStopFn (s : ServerState) : ServerState :=
  { contextMap := [], handlers := s.handlers, nextId := s.nextId,
    jettyRunning := false, startedHandlers := s.startedHandlers }

/-- Registry well-formedness: every handler id recorded in the map was
allocated by the counter.  It holds initially and is preserved by every
operation. -/
def RegistryWF (s : ServerState) : Prop :=
  ∀ p ∈ s.contextMap, p.2 < s.nextId

/-- Membership in the context map is preserved by `getContext` (a hit leaves
the map unchanged, a miss conses a new entry). -/
theorem getContext_preserves_mem (s : ServerState) (path : String)
    (virtualHosts : JSVal) (opts : Option ContextOptions) (kv : String × Nat)
    (h : kv ∈ s.contextMap) :
    kv ∈ (getContext s path virtualHosts opts).2.contextMap := by
  unfold getContext
  cases hl : s.contextMap.lookup (contextKey virtualHosts path) <;>
    simp [hl, h]

/-- C2: calling `getContext` twice with the same (path, virtualHosts) pair
returns the same Context, and the second call — whatever options it passes —
leaves the server state exactly as the first call left it: the first
registration wins and the second options object has no observable effect. -/
theorem C2_getContext_idempotent (s : ServerState) (path : String)
    (virtualHosts : JSVal) (opts1 opts2 : Option ContextOptions) :
    (getContext (getContext s path virtualHosts opts1).2 path virtualHosts opts2).1
      = (getContext s path virtualHosts opts1).1 ∧
    (getContext (getContext s path virtualHosts opts1).2 path virtualHosts opts2).2
      = (getContext s path virtualHosts opts1).2 := by
  unfold getContext
  cases hl : s.contextMap.lookup (contextKey virtualHosts path) <;>
    simp [hl, List.lookup]

/-- C3: key derivation and its consequences, starting from a fresh registry:
`"host1"`/`"host2"` derive the distinct keys `"host1/a"`/`"host2/a"` and
yield distinct Contexts, while `undefined` and `""` are both falsy, derive
the bare key `"/a"`, and yield the same Context. -/
theorem C3_key_derivation (opts : Option ContextOptions) :
    contextKey (JSVal.str "host1") "/a" = "host1/a" ∧
    contextKey JSVal.undef "/a" = "/a" ∧
    contextKey (JSVal.str "") "/a" = "/a" ∧
    (getContext (getContext initServerState "/a" (JSVal.str "host1") opts).2
        "/a" (JSVal.str "host2") opts).1
      ≠ (getContext initServerState "/a" (JSVal.str "host1") opts).1 ∧
    (getContext (getContext initServerState "/a" JSVal.undef opts).2
        "/a" (JSVal.str "") opts).1
      = (getContext initServerState "/a" JSVal.undef opts).1 := by
  refine ⟨rfl, rfl, rfl, ?_, rfl⟩
  show Context.mk 1 ≠ Context.mk 0
  intro h
  exact Nat.succ_ne_zero 0 (congrArg Context.handler h)

/-- C6: `stop()` clears the context registry, so a subsequent `getContext`
with a previously registered key misses the (now empty) map and constructs a
fresh handler with a new identity instead of returning the old one. -/
theorem C6_stop_clears_registry (s : ServerState) (key path : String)
    (virtualHosts : JSVal) (oldId : Nat) (opts : Option ContextOptions)
    (hwf : RegistryWF s) (hmem : (key, oldId) ∈ s.contextMap)
    (_hkey : contextKey virtualHosts path = key) :
    (serverStopFn s).contextMap = [] ∧
    (getContext (serverStopFn s) path virtualHosts opts).1.handler = s.nextId ∧
    (getContext (serverStopFn s) path virtualHosts opts).1.handler ≠ oldId := by
  have hold : oldId < s.nextId := hwf (key, oldId) hmem
  refine ⟨rfl, rfl, ?_⟩
  show s.nextId ≠ oldId
  omega

/-- C6 witness: a server whose registry holds the context registered for
`("/a", "h")`; after `stop()` the registry is empty and re-requesting the
same key yields a different handler identity. -/
theorem C6_stop_clears_registry_witness :
    (serverStopFn (getContext initServerState "/a" (JSVal.str "h") none).2).contextMap
      = [] ∧
    (getContext
        (serverStopFn (getContext initServerState "/a" (JSVal.str "h") none).2)
        "/a" (JSVal.str "h") none).1.handler
      = (getContext initServerState "/a" (JSVal.str "h") none).2.nextId ∧
    (getContext
        (serverStopFn (getContext initServerState "/a" (JSVal.str "h") none).2)
        "/a" (JSVal.str "h") none).1.handler
      ≠ 0 :=
  C6_stop_clears_registry
    (getContext initServerState "/a" (JSVal.str "h") none).2
    "h/a" "/a" (JSVal.str "h") 0 none
    (by unfold RegistryWF; decide) (by decide) rfl

/-! ## Daemon lifecycle (`start`/`stop`, httpserver.js lines 495-528)

The module-level flag `started` guards both functions.  `server.start()`
invokes `jetty.start()`; `server.stop()` is `serverStopFn`.  The application
hooks `app.start`/`app.stop` are called only when the application exports a
function of that name. -/

/-- Side effects of the daemon lifecycle functions on the server and the
application. -/
inductive DaemonEffect where
  | jettyStart
  | appStartHook
  | appStopHook
  | jettyStop
deriving DecidableEq, Repr

/-- The daemon-visible state: the module-level `started` flag and the
server. -/
structure DaemonState where
  started : Bool
  server : ServerState
deriving DecidableEq, Repr

/-- Daemon `start()` (lines 495-506): `if (started) return server;
server.start(); started = true;` then the optional `app.start(server)`
hook. -/
def daemonStart (appHasStartHook : Bool) (s : DaemonState) :
    DaemonState × List DaemonEffect :=
  if s.started then (s, [])
  else
    ({ started := true, server := { s.server with jettyRunning := true } },
     [DaemonEffect.jettyStart]
       ++ (if appHasStartHook then [DaemonEffect.appStartHook] else []))

/-- Daemon `stop()` (lines 517-528): `if (!started) return server;` then the
optional `app.stop(server)` hook, then `server.stop(); started = false;`. -/
def daemonStop (appHasStopHook : Bool) (s : DaemonState) :
    DaemonState × List DaemonEffect :=
  if !s.started then (s, [])
  else
    ({ started := false, server := serverStopFn s.server },
     (if appHasStopHook then [DaemonEffect.appStopHook] else [])
       ++ [DaemonEffect.jettyStop])

/-- C7: the daemon `start()`/`stop()` functions are idempotent under the
`started` flag: the second of two consecutive `start()` calls (likewise
`stop()` calls) changes nothing and performs no effect, so jetty is started
(resp. stopped) at most once across the pair. -/
theorem C7_daemon_lifecycle_idempotent (s : DaemonState)
    (startHook stopHook : Bool) :
    (daemonStart startHook (daemonStart startHook s).1).1
      = (daemonStart startHook s).1 ∧
    (daemonStart startHook (daemonStart startHook s).1).2 = [] ∧
    (daemonStop stopHook (daemonStop stopHook s).1).1
      = (daemonStop stopHook s).1 ∧
    (daemonStop stopHook (daemonStop stopHook s).1).2 = [] ∧
    ((daemonStart startHook s).2
        ++ (daemonStart startHook (daemonStart startHook s).1).2).count
      DaemonEffect.jettyStart ≤ 1 ∧
    ((daemonStop stopHook s).2
        ++ (daemonStop stopHook (daemonStop stopHook s).1).2).count
      DaemonEffect.jettyStop ≤ 1 := by
  rcases s with ⟨st, sv⟩
  cases st <;> cases startHook <;> cases stopHook <;>
    simp [daemonStart, daemonStop, List.count_cons]

/-! ## Server construction (httpserver.js lines 331-381) and `parseOptions`
(lines 385-420)

Construction resolves the jetty configuration resource and throws if it does
not exist (lines 333-337) — before jetty is configured, before the default
context is registered and before any listener connector is opened (lines
377-380).  `resourceExists` models `getResource(name).exists()`;
`numConnectors` is the number of connectors the jetty XML configuration
defines. -/

/-- The options object accepted by the `Server` constructor; absent fields
are `undefined`.  `appIsFunction` models `typeof options.app ===
"function"`. -/
structure ServerOptions where
  jettyConfig : JSVal
  port : JSVal
  host : JSVal
  mountpoint : JSVal
  virtualHost : JSVal
  sessions : JSVal
  security : JSVal
  cookieName : JSVal
  cookieDomain : JSVal
  cookiePath : JSVal
  httpOnlyCookies : JSVal
  secureCookies : JSVal
  appIsFunction : Bool
  appModule : JSVal
  appName : JSVal
  staticDir : JSVal
  staticMountpoint : JSVal
deriving DecidableEq, Repr

/-- The observable actions of the `Server` constructor, in source order. -/
inductive ConstructStep where
  | resolveResource (name : String)
  | configureJetty
  | serveApp
  | serveStaticDir
  | openConnector
deriving DecidableEq, Repr

/-- A constructed server: its context registry, the default context created
at lines 350-358, and the jetty properties set at lines 344-346. -/
structure ServerInstance where
  registry : ServerState
  defaultContext : Context
  props : List (String × String)
deriving DecidableEq, Repr

/-- Line 350: `options.mountpoint || "/"`. -/
def defaultMount (o : ServerOptions) : String :=
  if o.mountpoint.truthy then o.mountpoint.jsToString else "/"

/-- Lines 351-357: the options for the default context.  `sessions` and
`security` default to true unless explicitly `false`; the cookie fields
default to `null`; the http-only/secure flags are strict comparisons with
`true`. -/
def defaultContextOptions (o : ServerOptions) : ContextOptions :=
  { sessions := JSVal.bool (o.sessions != JSVal.bool false)
    security := JSVal.bool (o.security != JSVal.bool false)
    cookieName := if o.cookieName.truthy then o.cookieName else JSVal.null
    cookieDomain := if o.cookieDomain.truthy then o.cookieDomain else JSVal.null
    cookiePath := if o.cookiePath.truthy then o.cookiePath else JSVal.null
    httpOnlyCookies := JSVal.bool (o.httpOnlyCookies == JSVal.bool true)
    secureCookies := JSVal.bool (o.secureCookies == JSVal.bool true) }

/-- Lines 350-358: register the default context in a fresh registry. -/
def constructDefaultContext (o : ServerOptions) : Context × ServerState :=
  getContext initServerState (defaultMount o) o.virtualHost
    (some (defaultContextOptions o))

/-- Lines 368-372: when `options.staticDir` is truthy, register a second
context at `options.staticMountpoint || "/static"` (with no options object)
and serve the static directory from it. -/
def constructStaticContext (o : ServerOptions) (s : ServerState) :
    ServerState × List ConstructStep :=
  if o.staticDir.truthy then
    ((getContext s
        (if o.staticMountpoint.truthy then o.staticMountpoint.jsToString
         else "/static")
        o.virtualHost none).2,
     [ConstructStep.serveStaticDir])
  else (s, [])

/-- The body of the `Server` constructor (lines 331-381): resolve the jetty
configuration resource and throw if it is missing; otherwise set the
port/host properties, register the default context, mount the application
and the static directory when configured, and finally open every listener
connector. -/
def serverBody (o : ServerOptions) (resourceExists : String → Bool)
    (numConnectors : Nat) : Except String ServerInstance × List ConstructStep :=
  let jettyFile :=
    if o.jettyConfig.truthy then o.jettyConfig.jsToString
    else "config/jetty.xml"
  if !resourceExists jettyFile then
    (Except.error ("Resource \"" ++ jettyFile ++ "\" not found"),
     [ConstructStep.resolveResource jettyFile])
  else
    let props :=
      ("port", (if o.port.truthy then o.port else JSVal.num 8080).jsToString)
        :: (if o.host.truthy then [("host", o.host.jsToString)] else [])
    let dc := constructDefaultContext o
    let appSteps :=
      if o.appIsFunction then [ConstructStep.serveApp]
      else if o.appModule.truthy && o.appName.truthy then [ConstructStep.serveApp]
      else []
    let afterStatic := constructStaticContext o dc.2
    (Except.ok { registry := afterStatic.1, defaultContext := dc.1,
                 props := props },
     [ConstructStep.resolveResource jettyFile, ConstructStep.configureJetty]
       ++ appSteps ++ afterStatic.2
       ++ List.replicate numConnectors ConstructStep.openConnector)

/-- `new Server(options)`: runs the constructor body with `this` a fresh
Server instance. -/
def serverNew (o : ServerOptions) (resourceExists : String → Bool)
    (numConnectors : Nat) : Except String ServerInstance × List ConstructStep :=
  serverBody o resourceExists numConnectors

/-- Calling `Server(options)` with an arbitrary `this` (lines 47-51): the
guard `if (!(this instanceof Server)) return new Server(options);` redirects
a plain function call to a proper construction. -/
def serverCall (thisIsServerInstance : Bool) (o : ServerOptions)
    (resourceExists : String → Bool) (numConnectors : Nat) :
    Except String ServerInstance × List ConstructStep :=
  if thisIsServerInstance then serverBody o resourceExists numConnectors
  else serverNew o resourceExists numConnectors

/-- The port validation inside `parseOptions` (lines 403-409):
`if (options.port && !isFinite(options.port)) { var port =
parseInt(options.port, 10); if (isNaN(port) || port < 1) throw ...;
options.port = port; }`. -/
def parseOptionsPort (port : JSVal) : Except String JSVal :=
  if port.truthy && !isFiniteJS port then
    match parseIntJS port with
    | none => Except.error ("Invalid value for port: " ++ port.jsToString)
    | some n =>
        if n < 1 then Except.error ("Invalid value for port: " ++ port.jsToString)
        else Except.ok (JSVal.num n)
  else Except.ok port

/-- Membership in the context map is preserved by the optional static
context registration. -/
theorem constructStaticContext_preserves_mem (o : ServerOptions)
    (s : ServerState) (kv : String × Nat) (h : kv ∈ s.contextMap) :
    kv ∈ (constructStaticContext o s).1.contextMap := by
  unfold constructStaticContext
  split
  · exact getContext_preserves_mem _ _ _ _ _ h
  · exact h

/-- An all-defaults options object, as produced by `Server()` with no
argument (`options = options || {}`). -/
def demoOptions : ServerOptions :=
  { jettyConfig := .undef, port := .undef, host := .undef,
    mountpoint := .undef, virtualHost := .undef, sessions := .undef,
    security := .undef, cookieName := .undef, cookieDomain := .undef,
    cookiePath := .undef, httpOnlyCookies := .undef, secureCookies := .undef,
    appIsFunction := false, appModule := .undef, appName := .undef,
    staticDir := .undef, staticMountpoint := .undef }

/-- C8 counterexample: the port value `-5` parses to a number below 1, yet
`parseOptionsPort` does not throw — because `-5` is already finite, the
guard `options.port && !isFinite(options.port)` skips the validation
entirely and the invalid port is accepted unchanged. -/
theorem C8_port_below_one_accepted_counterexample :
    parseOptionsPort (JSVal.num (-5)) = Except.ok (JSVal.num (-5)) ∧
    (-5 : Int) < 1 := by
  refine ⟨rfl, by decide⟩

/-- C8 (amended): configuration errors are fatal at construction time: if
the jetty configuration resource does not exist, the `Server` constructor
throws before any listener connector is opened (and before anything else is
built); and `parseOptions` throws on a port value that is truthy and not
coercible to a finite number when its `parseInt` is `NaN` or a number below
1 (finite port values, even below 1, are passed through unvalidated). -/
theorem C8_config_errors_fatal (o : ServerOptions) (numConnectors : Nat) :
    ((∃ e, (serverBody o (fun _ => false) numConnectors).1 = Except.error e) ∧
     ConstructStep.openConnector ∉ (serverBody o (fun _ => false) numConnectors).2) ∧
    ∀ port : JSVal, port.truthy = true → isFiniteJS port = false →
      (parseIntJS port = none ∨ ∃ n, parseIntJS port = some n ∧ n < 1) →
      ∃ e, parseOptionsPort port = Except.error e := by
  constructor
  · constructor
    · exact ⟨_, rfl⟩
    · simp [serverBody]
  · intro port ht hf hp
    unfold parseOptionsPort
    rw [ht, hf]
    rcases hp with h | ⟨n, hn, hlt⟩
    · rw [h]
      exact ⟨_, rfl⟩
    · rw [hn]
      simp only [if_pos hlt]
      exact ⟨_, rfl⟩

/-- C8 witness: with every option left `undefined` and a missing
`config/jetty.xml`, construction fails without opening a connector; and the
non-numeric port string `"abc"` is rejected. -/
theorem C8_config_errors_fatal_witness :
    ((∃ e, (serverBody demoOptions (fun _ => false) 1).1 = Except.error e) ∧
     ConstructStep.openConnector ∉ (serverBody demoOptions (fun _ => false) 1).2) ∧
    (∃ e, parseOptionsPort (JSVal.str "abc") = Except.error e) :=
  ⟨(C8_config_errors_fatal demoOptions 1).1,
   (C8_config_errors_fatal demoOptions 1).2 (JSVal.str "abc")
     (by decide) (by decide) (Or.inl (by decide))⟩

/-- C9: calling `Server(options)` without `new` produces exactly the result
of `new Server(options)` — the guard redirects the call — and on successful
construction the returned instance is fully built: its default context is
registered in its registry under the derived key. -/
theorem C9_server_callable_without_new (o : ServerOptions)
    (resourceExists : String → Bool) (numConnectors : Nat) :
    serverCall false o resourceExists numConnectors
      = serverCall true o resourceExists numConnectors ∧
    ∃ inst, (serverCall false o (fun _ => true) numConnectors).1 = Except.ok inst ∧
      (contextKey o.virtualHost (defaultMount o), inst.defaultContext.handler)
        ∈ inst.registry.contextMap := by
  constructor
  · rfl
  · refine ⟨_, rfl, ?_⟩
    apply constructStaticContext_preserves_mem
    show (contextKey o.virtualHost (defaultMount o),
          (constructDefaultContext o).1.handler)
        ∈ (constructDefaultContext o).2.contextMap
    unfold constructDefaultContext getContext
    simp [initServerState, List.lookup]
